import Mathlib

/-!
# Verification of the Corona-Tracker repository

A shallow embedding, in Lean 4, of the data model and the operations of the
two Python modules `coronatracker.py` and `dataproccessor.py`, together with
theorems settling the specification claims about them.

Modelling conventions:
* A pandas `DataFrame` of city-level records is a `List USRegionRecord`; a
  column is obtained with `frameCol`.  Column values are `PyVal` (an integer
  or a string), matching the heterogeneous dtypes of a frame.
* Python exceptions (`ValueError`, `KeyError`) are the error side of
  `Except PyErr`.
* Python `int(s)` is `pyInt` (optional surrounding whitespace, optional sign,
  decimal digits; the inputs this program feeds it are plain decimal
  numerals, so digit-group underscores and non-ASCII digits are not modelled).
* `str.replace(c, '')` for a single character `c` is character filtering;
  `str.split(',')` is `pySplitComma`; the pandas substring test
  `Series.str.contains(name)` is `strContains` (the state and city names the
  program uses contain no regex metacharacters, so the default regex mode of
  `str.contains` coincides with plain substring containment).
-/

set_option autoImplicit false

namespace CoronaTracker

/-- Python exceptions raised by the modelled code. -/
inductive PyErr where
  | valueError (msg : String)
  | keyError (msg : String)
  deriving Repr, DecidableEq

/-- A value held in a pandas column: an integer or a string. -/
inductive PyVal where
  | vint (n : Int)
  | vstr (s : String)
  deriving Repr, DecidableEq

/-- Decimal digits of a Python int literal (all characters must be digits,
and there must be at least one). -/
def parseDigits (cs : List Char) : Option Nat :=
  if cs.isEmpty then none
  else if cs.all Char.isDigit then
    some (cs.foldl (fun a c => a * 10 + (c.toNat - 48)) 0)
  else none

/-- Strip leading and trailing whitespace, as Python `int()` does before
parsing. -/
def trimWs (cs : List Char) : List Char :=
  ((cs.dropWhile Char.isWhitespace).reverse.dropWhile Char.isWhitespace).reverse

/-- The numeral accepted by Python `int(s)`: optional sign then digits. -/
def pyIntCore (cs : List Char) : Option Int :=
  match trimWs cs with
  | '-' :: rest => (parseDigits rest).map (fun n => -(n : Int))
  | '+' :: rest => (parseDigits rest).map (fun n => (n : Int))
  | rest => (parseDigits rest).map (fun n => (n : Int))

/-- Python `int(s)`: returns the parsed integer or raises `ValueError`. -/
def pyInt (s : String) : Except PyErr Int :=
  match pyIntCore s.data with
  | some n => .ok n
  | none => .error (.valueError ("invalid literal for int with base 10 " ++ s))

/-- `true` iff an `Except` computation succeeded. -/
def isOkB {α : Type} (e : Except PyErr α) : Bool :=
  match e with
  | .ok _ => true
  | .error _ => false

/-- `s.replace(' ', '')` — remove every space character. -/
def removeSpaces (s : String) : String :=
  String.mk (s.data.filter (fun c => c != ' '))

/-- `s.replace('§', '').replace(':', '')` — remove the footnote marker and
colon characters (used on CDC measure labels). -/
def stripMarks (s : String) : String :=
  String.mk (s.data.filter (fun c => c != '§' && c != ':'))

/-- Split a character list at every occurrence of `sep` (Python
`str.split(sep)` semantics: `''.split(',') = ['']`). -/
def splitOnCharAux (sep : Char) : List Char → List (List Char)
  | [] => [[]]
  | c :: cs =>
    match splitOnCharAux sep cs with
    | [] => if c = sep then [[], []] else [[c]]
    | h :: t => if c = sep then [] :: h :: t else (c :: h) :: t

/-- Python `s.split(',')`. -/
def pySplitComma (s : String) : List String :=
  (splitOnCharAux ',' s.data).map String.mk

/-- Pandas `haystack.str.contains(needle)` for regex-free needles:
`needle` occurs in `haystack` as a (case-sensitive) substring. -/
def strContains (haystack needle : String) : Bool :=
  haystack.data.tails.any (fun t => needle.data.isPrefixOf t)

/-! ## The JHU data model (`coronatracker.py`) -/

/-- One row of the normalized JHU frame: columns
`state, city, cases, deaths, recoveries`. -/
structure USRegionRecord where
  state : String
  city : String
  cases : Int
  deaths : Int
  recoveries : Int
  deriving Repr, DecidableEq

/-- One row of the state-level frame produced by `make_state_frame`:
columns `state, cases, deaths, recoveries`. -/
structure StateRow where
  state : String
  cases : Int
  deaths : Int
  recoveries : Int
  deriving Repr, DecidableEq

/-- The `state_map` dictionary: two-letter code to full state name
(all 50 entries of the source). -/
def state_map : List (String × String) :=
  [("AL", "Alabama"), ("AK", "Alaska"), ("AZ", "Arizona"), ("CA", "California"),
   ("CO", "Colorado"), ("CT", "Connecticut"), ("DE", "Delaware"), ("FL", "Florida"),
   ("GA", "Georgia"), ("HI", "Hawaii"), ("ID", "Idaho"), ("IL", "Illinois"),
   ("IN", "Indiana"), ("IA", "Iowa"), ("KS", "Kansas"), ("KY", "Kentucky"),
   ("LA", "Louisiana"), ("ME", "Maine"), ("MD", "Maryland"), ("MA", "Massachusetts"),
   ("MI", "Michigan"), ("MN", "Minnesota"), ("MS", "Mississippi"), ("MO", "Missouri"),
   ("MT", "Montana"), ("NE", "Nebraska"), ("NV", "Nevada"), ("NH", "New Hampshire"),
   ("NJ", "New Jersey"), ("NM", "New Mexico"), ("NY", "New York"), ("NC", "North Carolina"),
   ("ND", "North Dakota"), ("OH", "Ohio"), ("OK", "Oklahoma"), ("OR", "Oregon"),
   ("PA", "Pennsylvania"), ("RI", "Rhode Island"), ("SC", "South Carolina"),
   ("SD", "South Dakota"), ("TN", "Tennessee"), ("TX", "Texas"), ("UT", "Utah"),
   ("VT", "Vermont"), ("VA", "Virginia"), ("WA", "Washington"), ("WV", "West Virginia"),
   ("WI", "Wisconsin"), ("WY", "Wyoming")]

/-- One raw spreadsheet row as consumed by `get_jhu_data`'s loop:
`region = row[0]`, `country = row[1]`, `cases = row[3]`, `deaths = row[4]`,
`recoveries = row[5]` (all cells are strings; `row[2]` is unused by the
source and not modelled). -/
structure SheetRow where
  region : String
  country : String
  cases : String
  deaths : String
  recoveries : String
  deriving Repr, DecidableEq

/-- The `try`/`except ValueError` block of `get_jhu_data` (source lines
79-84):

```python
try:
    deaths = int(deaths)
    recoveries = int(recoveries)
except ValueError:
    deaths = 0
    recoveries = 0
```

`int(deaths)` runs first; if `int(recoveries)` then raises, the handler
resets BOTH names to 0, discarding an already-parsed deaths value. -/
def parseDeathsRecoveries (deaths recoveries : String) : Int × Int :=
  match pyInt deaths with
  | .error _ => (0, 0)
  | .ok d =>
    match pyInt recoveries with
    | .error _ => (0, 0)
    | .ok r => (d, r)

/-- The body of `get_jhu_data`'s per-row loop: returns `none` for a
non-US row (the row is skipped), `some rec` for a qualifying row, and an
error when `int(cases)` fails, the region label does not split into
exactly `city, state`, or the state code is not in `state_map`. -/
def processSheetRow (row : SheetRow) : Except PyErr (Option USRegionRecord) :=
  if row.country = "US" then
    match pyInt row.cases with
    | .error e => .error e
    | .ok cases =>
      let (deaths, recoveries) := parseDeathsRecoveries row.deaths row.recoveries
      match pySplitComma row.region with
      | [city, st] =>
        match state_map.lookup (removeSpaces st) with
        | some full =>
          .ok (some { state := full, city := city, cases := cases,
                      deaths := deaths, recoveries := recoveries })
        | none => .error (.keyError (removeSpaces st))
      | _ => .error (.valueError "cannot unpack region label")
  else .ok none

/-- `get_jhu_data` restricted to its data transformation: the sheet rows
are a parameter (the Sheets API call is an external effect), and the
frame construction and CSV write do not alter the computed rows. -/
def get_jhu_data : List SheetRow → Except PyErr (List USRegionRecord)
  | [] => .ok []
  | row :: rest =>
    match processSheetRow row with
    | .error e => .error e
    | .ok none => get_jhu_data rest
    | .ok (some r) =>
      match get_jhu_data rest with
      | .error e => .error e
      | .ok rs => .ok (r :: rs)

/-! ## Column selection and state aggregation (`coronatracker.py`) -/

/-- Pandas `frame[var]` on a JHU-shaped frame: the named column as a list
of its values, or a `KeyError` for an unknown column name. -/
def frameCol (data : List USRegionRecord) (var : String) : Except PyErr (List PyVal) :=
  if var = "state" then .ok (data.map (fun r => .vstr r.state))
  else if var = "city" then .ok (data.map (fun r => .vstr r.city))
  else if var = "cases" then .ok (data.map (fun r => .vint r.cases))
  else if var = "deaths" then .ok (data.map (fun r => .vint r.deaths))
  else if var = "recoveries" then .ok (data.map (fun r => .vint r.recoveries))
  else .error (.keyError var)

/-- `get_data_for(name, var, data, region)`.  The first component is the
list of warning messages emitted through `logger.warning`; the second is
the returned column (or the raised error).  The valid-region branches
filter the frame by substring containment on `state` (resp. `city`) and
select `var`'s column of the filtered frame. -/
def get_data_for (name var : String) (data : List USRegionRecord)
    (region : String := "state") : List String × Except PyErr (List PyVal) :=
  if region = "state" then
    ([], frameCol (data.filter (fun r => strContains r.state name)) var)
  else if region = "city" then
    ([], frameCol (data.filter (fun r => strContains r.city name)) var)
  else
    (["Received invalid region " ++ region],
     .error (.valueError ("Unknown region " ++ region ++
       "! Region must be either state or city!")))

/-- Pandas `Series.sum()` as used by `make_state_frame`: every series it
sums there is an integer column, so only integer series are modelled (a
string element yields an error rather than pandas's string concatenation,
a case the source never reaches). -/
def seriesIntSum : List PyVal → Except PyErr Int
  | [] => .ok 0
  | .vint n :: rest =>
    match seriesIntSum rest with
    | .ok s => .ok (n + s)
    | .error e => .error e
  | .vstr _ :: _ => .error (.valueError "unsupported operand type for sum")

/-- The loop of `make_state_frame` over `data['state']`: `pending` is the
remainder of the state column, `seen` is the `states` list accumulated so
far, `out` the rows built so far (the three per-state `get_data_for`
series are fetched before the membership test, as in the source; their
sums are taken inside the `if` branch). -/
def msfLoop (data : List USRegionRecord) :
    List String → List String → List StateRow → Except PyErr (List StateRow)
  | [], _, out => .ok out
  | st :: pending, seen, out =>
    match (get_data_for st "deaths" data).2 with
    | .error e => .error e
    | .ok deaths =>
      match (get_data_for st "cases" data).2 with
      | .error e => .error e
      | .ok cases =>
        match (get_data_for st "recoveries" data).2 with
        | .error e => .error e
        | .ok recoveries =>
          if st ∈ seen then msfLoop data pending seen out
          else
            match seriesIntSum deaths with
            | .error e => .error e
            | .ok d =>
              match seriesIntSum cases with
              | .error e => .error e
              | .ok c =>
                match seriesIntSum recoveries with
                | .error e => .error e
                | .ok rv =>
                  msfLoop data pending (seen ++ [st])
                    (out ++ [{ state := st, cases := c, deaths := d, recoveries := rv }])

/-- `make_state_frame(data)`: iterate over the state column, aggregating
each state the first time it is encountered. -/
def make_state_frame (data : List USRegionRecord) : Except PyErr (List StateRow) :=
  msfLoop data (data.map (fun r => r.state)) [] []

/-! ## `is_new_data` (`coronatracker.py`) -/

/-- Pandas `recent != prev` on two aligned series: raises unless the
series are identically labeled (same length with the default range
index), else compares element by element. -/
def seriesNe (xs ys : List PyVal) : Except PyErr (List Bool) :=
  if xs.length = ys.length then .ok (List.zipWith (fun a b => a != b) xs ys)
  else .error (.valueError "Can only compare identically-labeled Series objects")

/-- Truth value of a pandas `Series`, as demanded by `if <series>`:
`Series.__bool__` raises `ValueError` unconditionally, whatever the
length or contents of the series. -/
def seriesBool (_ : List Bool) : Except PyErr Bool :=
  .error (.valueError "The truth value of a Series is ambiguous")

/-- The column loop of `is_new_data`: for each of the four shared columns,
evaluate `if recent_data[column] != prev_data[column]` and set the flag. -/
def isNewLoop (recent prev : List USRegionRecord) : List String → Except PyErr Bool
  | [] => .ok false
  | c :: rest =>
    match frameCol recent c with
    | .error e => .error e
    | .ok rc =>
      match frameCol prev c with
      | .error e => .error e
      | .ok pc =>
        match seriesNe rc pc with
        | .error e => .error e
        | .ok ne =>
          match seriesBool ne with
          | .error e => .error e
          | .ok b => if b then .ok true else isNewLoop recent prev rest

/-- `is_new_data(recent_data)` with the previously saved snapshot already
loaded into `prev` (the `read_csv` call is an external effect; its result
is the parameter). -/
def is_new_data (recent prev : List USRegionRecord) : Except PyErr Bool :=
  isNewLoop recent prev ["state", "cases", "deaths", "recoveries"]

/-! ## The CDC data model (`coronatracker.py`) -/

/-- One row of the CDC measure frame: columns `measure, counts`. -/
structure CDCMeasure where
  measure : String
  counts : Int
  deriving Repr, DecidableEq

/-- `get_cdc_data` restricted to its row loop: the scraped `(th, td)` text
pairs of the first table's rows are the parameter (the HTTP fetch and
HTML parsing are external effects).  Per row: strip `§` and `:` from the
header text, parse the data cell with `int` (raising on failure), then
keep the row unless its stripped label is exactly `"Total"`. -/
def get_cdc_data : List (String × String) → Except PyErr (List CDCMeasure)
  | [] => .ok []
  | (th, td) :: rest =>
    let measure_name := stripMarks th
    match pyInt td with
    | .error e => .error e
    | .ok measure_val =>
      match get_cdc_data rest with
      | .error e => .error e
      | .ok tail =>
        if measure_name ≠ "Total" then .ok (⟨measure_name, measure_val⟩ :: tail)
        else .ok tail

/-! ## Time-series aggregation (`dataproccessor.py`) -/

/-- `get_country_cumulative(data)`.  A `TimeSeriesFrame` is a list of
named columns; the `state`/`city` identifier columns are excluded by name
before any value is inspected, so column values are modelled uniformly as
integers (the values of excluded columns are never used).  `rates` is the
list comprehension over `data.columns`, `daily_rates` the per-column
`np.sum`. -/
def get_country_cumulative (data : List (String × List Int)) : List Int :=
  let rates := (data.filter (fun column => column.1 != "state" && column.1 != "city")).map
    (fun column => column.2)
  rates.map (fun day_rate => day_rate.sum)

/-- The qualifying (non-identifier) columns of a time-series frame, for
stating what `get_country_cumulative` computes. -/
def qualCols (data : List (String × List Int)) : List (String × List Int) :=
  data.filter (fun column => column.1 != "state" && column.1 != "city")

/-! ## Time-series plot (`dataproccessor.py`) -/

/-- Python `math.log(x)` on an integer count: defined for positive
arguments, raises `ValueError: math domain error` otherwise (in
particular at 0). -/
noncomputable def pyMathLog (x : Int) : Except PyErr Real :=
  if 0 < x then .ok (Real.log x) else .error (.valueError "math domain error")

/-- The list comprehension `[math.log(freq) for freq in freqs]`,
evaluated left to right, propagating the first raised error. -/
noncomputable def logListComp : List Int → Except PyErr (List Real)
  | [] => .ok []
  | freq :: rest =>
    match pyMathLog freq with
    | .error e => .error e
    | .ok y =>
      match logListComp rest with
      | .error e => .error e
      | .ok ys => .ok (y :: ys)

/-- `make_time_series_plot(freqs)`: the axis and figure calls are
effect-free on the data; the only fallible computation is the log-scale
series, which the model returns. -/
noncomputable def make_time_series_plot (freqs : List Int) : Except PyErr (List Real) :=
  logListComp freqs

/-! ## `make_plots` (`dataproccessor.py`) -/

/-- `make_plots(data)` with `data = [us_frame, ts_data]` modelled as two
parameters.  The body rebinds the local name `us_frame` to the filtered
frame `us_frame[us_frame.cases > 20]` (pandas boolean-mask selection
returns a new frame and leaves its receiver untouched), aggregates the
filtered copy with `make_state_frame`, and renders the time-series plot.
The model returns the pair (plot computation, the caller's frame after
the call); the second component expresses the state the caller's table is
left in. -/
noncomputable def make_plots (data : List USRegionRecord)
    (ts_data : List (String × List Int)) :
    Except PyErr (List StateRow × List Real) × List USRegionRecord :=
  let us_frame := data
  let has_many_cases := fun (r : USRegionRecord) => decide (20 < r.cases)
  let us_frame := us_frame.filter has_many_cases
  let plotted : Except PyErr (List StateRow × List Real) :=
    match make_state_frame us_frame with
    | .error e => .error e
    | .ok state_frame =>
      match make_time_series_plot (get_country_cumulative ts_data) with
      | .error e => .error e
      | .ok log_freqs => .ok (state_frame, log_freqs)
  (plotted, data)

/-! ## The `main` loop (`coronatracker.py`) -/

/-- `main(first_run)` as a fuel-indexed termination model.  Each
invocation performs one fetch/plot cycle and then enters
`while True: sleep; main(first_run=False); break` — the `break` runs only
after the recursive call returns.  `main fuel fr = some k` means the
invocation terminates within recursion depth `fuel` after `k` fetch/plot
cycles in total; `none` means the fuel was exhausted with the recursion
still running. -/
def main : Nat → Bool → Option Nat
  | 0, _ => none
  | fuel + 1, _ =>
    match main fuel false with
    | some k => some (k + 1)
    | none => none

/-! ## Helper definitions for the claim statements -/

/-- Equality of `Except` results is decidable when both sides are, so
concrete runs of the modelled functions can be checked by `decide`. -/
instance {ε α : Type} [DecidableEq ε] [DecidableEq α] : DecidableEq (Except ε α) := fun a b =>
  match a, b with
  | .error e, .error f =>
    if h : e = f then isTrue (by rw [h]) else isFalse (fun hc => by cases hc; exact h rfl)
  | .ok x, .ok y =>
    if h : x = y then isTrue (by rw [h]) else isFalse (fun hc => by cases hc; exact h rfl)
  | .error _, .ok _ => isFalse (fun hc => Except.noConfusion hc)
  | .ok _, .error _ => isFalse (fun hc => Except.noConfusion hc)

/-- The aggregate row `make_state_frame` actually produces for a state
name `st`: sums over the rows whose `state` CONTAINS `st` as a substring
(the filter `get_data_for` applies). -/
def aggRow (data : List USRegionRecord) (st : String) : StateRow :=
  { state := st,
    cases := ((data.filter (fun r => strContains r.state st)).map (fun r => r.cases)).sum,
    deaths := ((data.filter (fun r => strContains r.state st)).map (fun r => r.deaths)).sum,
    recoveries := ((data.filter (fun r => strContains r.state st)).map (fun r => r.recoveries)).sum }

/-- The elements of `l` not in `seen`, keeping only the first occurrence
of each, in encounter order — the order in which `make_state_frame`'s
loop admits states. -/
def newFirsts (seen : List String) : List String → List String
  | [] => []
  | x :: xs => if x ∈ seen then newFirsts seen xs else x :: newFirsts (seen ++ [x]) xs

/-- What `aggregateByState` computes, per the amended claim: one row per
distinct state name in order of first encounter, each row aggregating the
input rows whose state name contains that state name as a substring. -/
def aggregateByStateSub (data : List USRegionRecord) : List StateRow :=
  (newFirsts [] (data.map (fun r => r.state))).map (aggRow data)

/-- The CDC rows the loop keeps, as a `filterMap`: stripped label and
parsed count for every row whose stripped label is not `"Total"`. -/
def cdcExpected (rows : List (String × String)) : List CDCMeasure :=
  rows.filterMap (fun p =>
    match pyInt p.2 with
    | .ok n => if stripMarks p.1 = "Total" then none else some ⟨stripMarks p.1, n⟩
    | .error _ => none)

/-! ## Helper lemmas -/

lemma seriesIntSum_map {α : Type} (f : α → Int) (l : List α) :
    seriesIntSum (l.map (fun a => PyVal.vint (f a))) = .ok (l.map f).sum := by
  induction l with
  | nil => rfl
  | cons a l ih => simp [seriesIntSum, ih, List.sum_cons]

lemma get_data_for_state_col (st var : String) (data : List USRegionRecord) :
    (get_data_for st var data).2
      = frameCol (data.filter (fun r => strContains r.state st)) var := rfl

lemma msfLoop_spec (data : List USRegionRecord) (pending : List String) :
    ∀ (seen : List String) (out : List StateRow),
      msfLoop data pending seen out
        = .ok (out ++ (newFirsts seen pending).map (aggRow data)) := by
  induction pending with
  | nil => intro seen out; simp [msfLoop, newFirsts]
  | cons st rest ih =>
    intro seen out
    have hd : (get_data_for st "deaths" data).2
        = .ok ((data.filter (fun r => strContains r.state st)).map
            (fun r => PyVal.vint r.deaths)) := rfl
    have hc : (get_data_for st "cases" data).2
        = .ok ((data.filter (fun r => strContains r.state st)).map
            (fun r => PyVal.vint r.cases)) := rfl
    have hr : (get_data_for st "recoveries" data).2
        = .ok ((data.filter (fun r => strContains r.state st)).map
            (fun r => PyVal.vint r.recoveries)) := rfl
    by_cases hmem : st ∈ seen
    · simp only [msfLoop, hd, hc, hr, if_pos hmem, newFirsts]
      rw [ih seen out]
    · simp only [msfLoop, hd, hc, hr, if_neg hmem, newFirsts, seriesIntSum_map]
      rw [ih (seen ++ [st]) _]
      simp [aggRow, List.append_assoc]

lemma newFirsts_not_mem_seen (l : List String) :
    ∀ seen, ∀ x ∈ newFirsts seen l, x ∉ seen := by
  induction l with
  | nil => intro seen x hx; cases hx
  | cons a l ih =>
    intro seen x hx
    by_cases ha : a ∈ seen
    · rw [newFirsts, if_pos ha] at hx
      exact ih seen x hx
    · rw [newFirsts, if_neg ha] at hx
      rcases List.mem_cons.mp hx with rfl | hx
      · exact ha
      · intro hxs
        exact (ih (seen ++ [a]) x hx) (List.mem_append_left _ hxs)

lemma newFirsts_nodup (l : List String) : ∀ seen, (newFirsts seen l).Nodup := by
  induction l with
  | nil => intro seen; simp [newFirsts]
  | cons a l ih =>
    intro seen
    by_cases ha : a ∈ seen
    · rw [newFirsts, if_pos ha]; exact ih seen
    · rw [newFirsts, if_neg ha]
      refine List.nodup_cons.mpr ⟨?_, ih (seen ++ [a])⟩
      intro hmem
      exact (newFirsts_not_mem_seen l (seen ++ [a]) a hmem)
        (List.mem_append_right _ (by simp))

/-! ## Claim theorems -/

/-- C1 (counterexample).  The claim says each state's row sums exactly
the rows whose state field IS that state name.  On the table with one
"West Virginia" row (cases 1, deaths 1, recoveries 1) and one "Virginia"
row (cases 2, deaths 2, recoveries 2), `make_state_frame` produces a
"Virginia" row with cases 3 — the West Virginia row is included because
filtering uses substring containment — whereas the claim demands cases 2. -/
theorem make_state_frame_exact_sum_cex :
    make_state_frame [⟨"West Virginia", "Wheeling", 1, 1, 1⟩, ⟨"Virginia", "Richmond", 2, 2, 2⟩]
      = .ok [⟨"West Virginia", 1, 1, 1⟩, ⟨"Virginia", 3, 3, 3⟩]
  ∧ make_state_frame [⟨"West Virginia", "Wheeling", 1, 1, 1⟩, ⟨"Virginia", "Richmond", 2, 2, 2⟩]
      ≠ .ok [⟨"West Virginia", 1, 1, 1⟩, ⟨"Virginia", 2, 2, 2⟩] := by
  constructor
  · rfl
  · decide

/-- C1 (amended).  `make_state_frame` returns exactly one row per
distinct state name, in order of first encounter (the state column is
duplicate-free), and each state's row holds the sums of `cases`,
`deaths`, `recoveries` over the input rows whose state field CONTAINS
that state name as a substring (the `str.contains` filter of
`get_data_for`), which are the exact-match sums only when no state name
is a substring of a different one. -/
theorem make_state_frame_substring_agg (data : List USRegionRecord) :
    make_state_frame data = .ok (aggregateByStateSub data)
  ∧ ((aggregateByStateSub data).map StateRow.state).Nodup := by
  constructor
  · rw [make_state_frame, msfLoop_spec data _ [] []]
    rfl
  · have hmap : ∀ l : List String, (l.map (aggRow data)).map StateRow.state = l := by
      intro l
      induction l with
      | nil => rfl
      | cons a l ih => simp [ih, aggRow]
    rw [aggregateByStateSub, hmap]
    exact newFirsts_nodup _ []

/-- C2 (counterexample).  The claim says a parsed deaths cell keeps its
value even when the recoveries cell is unparseable.  On a US row with
deaths "5" and recoveries "", `get_jhu_data` produces `deaths = 0`:
the shared `except ValueError` handler resets both fields. -/
theorem get_jhu_data_coupled_defaults_cex :
    get_jhu_data [⟨"Berkeley, CA", "US", "10", "5", ""⟩]
      = .ok [{ state := "California", city := "Berkeley", cases := 10,
               deaths := 0, recoveries := 0 }]
  ∧ get_jhu_data [⟨"Berkeley, CA", "US", "10", "5", ""⟩]
      ≠ .ok [{ state := "California", city := "Berkeley", cases := 10,
               deaths := 5, recoveries := 0 }] := by
  constructor
  · rfl
  · decide

/-- C2 (amended).  The deaths and recoveries defaults are coupled, not
independent: when both cells parse as integers the record carries both
parsed values, but when EITHER cell fails to parse, BOTH fields are set
to 0 (in particular a successfully parsed deaths value is discarded when
the recoveries cell is blank, and two blank cells give 0 and 0). -/
theorem parseDeathsRecoveries_joint_default (ds rs : String) :
    (∀ d r : Int, pyInt ds = .ok d → pyInt rs = .ok r →
        parseDeathsRecoveries ds rs = (d, r))
  ∧ (isOkB (pyInt ds) = false ∨ isOkB (pyInt rs) = false →
        parseDeathsRecoveries ds rs = (0, 0)) := by
  constructor
  · intro d r hd hr
    simp [parseDeathsRecoveries, hd, hr]
  · intro h
    cases hds : pyInt ds with
    | error e => simp [parseDeathsRecoveries, hds]
    | ok d =>
      cases hrs : pyInt rs with
      | error e => simp [parseDeathsRecoveries, hds, hrs]
      | ok r =>
        exfalso
        rcases h with h | h <;> rw [hds] at * <;> rw [hrs] at * <;> simp [isOkB] at h

/-- C2 (witness): with deaths "4" and recoveries "" (blank, unparseable)
both fields default to 0 together. -/
theorem parseDeathsRecoveries_joint_default_witness :
    isOkB (pyInt "") = false ∧ parseDeathsRecoveries "4" "" = (0, 0) :=
  ⟨by decide, (parseDeathsRecoveries_joint_default "4" "").2 (Or.inr (by decide))⟩

/-- C3 (code bug).  `is_new_data` can never return a boolean: evaluating
`if recent_data[column] != prev_data[column]` takes the truth value of a
pandas Series, which raises `ValueError` unconditionally (and when the
two tables have different lengths the comparison itself already raises).
In particular it raises on a one-row table compared against an identical
prior snapshot, where the claim (and the function's own docstring) say
it returns `False`. -/
theorem is_new_data_always_raises :
    (∀ recent prev : List USRegionRecord, ∃ e, is_new_data recent prev = .error e)
  ∧ is_new_data [⟨"California", "Berkeley", 10, 0, 0⟩]
      [⟨"California", "Berkeley", 10, 0, 0⟩]
      = .error (.valueError "The truth value of a Series is ambiguous") := by
  constructor
  · intro recent prev
    by_cases h : recent.length = prev.length
    · refine ⟨.valueError "The truth value of a Series is ambiguous", ?_⟩
      simp [is_new_data, isNewLoop, frameCol, seriesNe, seriesBool, h]
    · refine ⟨.valueError "Can only compare identically-labeled Series objects", ?_⟩
      simp [is_new_data, isNewLoop, frameCol, seriesNe, seriesBool, h]
  · rfl

/-- C4.  `get_data_for` with a region other than `"state"`/`"city"`
emits exactly the invalid-region warning and raises `ValueError` (it
never returns a value); with region `"state"` (resp. `"city"`) it logs
nothing and returns the `var` column of the rows whose state (resp.
city) contains `name` as a case-sensitive substring. -/
theorem get_data_for_region_contract (name var region : String)
    (data : List USRegionRecord) :
    (region ≠ "state" → region ≠ "city" →
      get_data_for name var data region
        = (["Received invalid region " ++ region],
           .error (.valueError ("Unknown region " ++ region ++
             "! Region must be either state or city!")))
      ∧ ∀ vals, (get_data_for name var data region).2 ≠ .ok vals)
  ∧ get_data_for name var data "state"
      = ([], frameCol (data.filter (fun r => strContains r.state name)) var)
  ∧ get_data_for name var data "city"
      = ([], frameCol (data.filter (fun r => strContains r.city name)) var) := by
  refine ⟨?_, rfl, rfl⟩
  intro hs hc
  constructor
  · simp [get_data_for, hs, hc]
  · intro vals
    simp [get_data_for, hs, hc]

/-- C4 (witness): region `"county"` on a concrete one-row table logs the
warning and raises. -/
theorem get_data_for_region_contract_witness :
    ("county" ≠ "state" ∧ "county" ≠ "city")
  ∧ get_data_for "California" "cases" [⟨"California", "Berkeley", 10, 0, 0⟩] "county"
      = (["Received invalid region " ++ "county"],
         .error (.valueError ("Unknown region " ++ "county" ++
           "! Region must be either state or city!"))) :=
  ⟨⟨by decide, by decide⟩,
   ((get_data_for_region_contract "California" "cases" "county"
       [⟨"California", "Berkeley", 10, 0, 0⟩]).1 (by decide) (by decide)).1⟩

lemma cdcExpected_cons_total (p : String × String) (rest : List (String × String))
    {n : Int} (hn : pyInt p.2 = .ok n) (ht : stripMarks p.1 = "Total") :
    cdcExpected (p :: rest) = cdcExpected rest := by
  simp [cdcExpected, List.filterMap_cons, hn, ht]

lemma cdcExpected_cons_keep (p : String × String) (rest : List (String × String))
    {n : Int} (hn : pyInt p.2 = .ok n) (ht : stripMarks p.1 ≠ "Total") :
    cdcExpected (p :: rest) = ⟨stripMarks p.1, n⟩ :: cdcExpected rest := by
  simp [cdcExpected, List.filterMap_cons, hn, ht]

/-- C5.  When every data cell parses as an integer, `get_cdc_data`
returns exactly the rows whose (stripped) label is not `"Total"`, in
page order, each with the `§` and `:` characters removed from its label
and its count parsed as an integer; the `"Total"` row is excluded
wherever it occurs, and no `"Total"`-labelled row survives. -/
theorem get_cdc_data_total_excluded (rows : List (String × String))
    (h : ∀ p ∈ rows, isOkB (pyInt p.2) = true) :
    get_cdc_data rows = .ok (cdcExpected rows)
  ∧ ∀ m ∈ cdcExpected rows, m.measure ≠ "Total" := by
  constructor
  · revert h
    induction rows with
    | nil => intro h; rfl
    | cons p rest ih =>
      intro h
      have hp : isOkB (pyInt p.2) = true := h p (List.mem_cons_self _ _)
      have hrest : ∀ q ∈ rest, isOkB (pyInt q.2) = true :=
        fun q hq => h q (List.mem_cons_of_mem _ hq)
      obtain ⟨n, hn⟩ : ∃ n, pyInt p.2 = .ok n := by
        cases he : pyInt p.2 with
        | error e => rw [he] at hp; simp [isOkB] at hp
        | ok n => exact ⟨n, rfl⟩
      have ihr := ih hrest
      obtain ⟨th, td⟩ := p
      by_cases ht : stripMarks th = "Total"
      · rw [cdcExpected_cons_total _ _ hn ht]
        simp only [get_cdc_data, hn, ihr]
        rw [if_neg (not_not_intro ht)]
      · rw [cdcExpected_cons_keep _ _ hn ht]
        simp only [get_cdc_data, hn, ihr]
        rw [if_pos ht]
  · intro m hm
    obtain ⟨a, ha, hfa⟩ := List.mem_filterMap.mp hm
    cases he : pyInt a.2 with
    | error e => rw [he] at hfa; simp at hfa
    | ok n =>
      rw [he] at hfa
      by_cases ht : stripMarks a.1 = "Total"
      · simp [ht] at hfa
      · simp only [if_neg ht, Option.some.injEq] at hfa
        rw [← hfa]
        exact ht

/-- C5 (witness): on a three-row table with a middle `"Total"` row and a
`§` marker on another label, the parsed frame keeps the two non-Total
rows in order with stripped labels and parsed counts. -/
theorem get_cdc_data_total_excluded_witness :
    (∀ p ∈ [("Positive", "3"), ("Total", "10"), ("Negative§", "7")],
        isOkB (pyInt p.2) = true)
  ∧ get_cdc_data [("Positive", "3"), ("Total", "10"), ("Negative§", "7")]
      = .ok [⟨"Positive", 3⟩, ⟨"Negative", 7⟩] :=
  ⟨by decide, by
    rw [(get_cdc_data_total_excluded
      [("Positive", "3"), ("Total", "10"), ("Negative§", "7")] (by decide)).1]
    rfl⟩

/-- C6.  `get_country_cumulative` produces one total per non-`state`,
non-`city` column, in the table's column order, each total being the sum
of that column's values over all rows; on the concrete frame with
columns `state, city, day1, day2` and rows `day1 = [3,4]`,
`day2 = [5,6]` it returns `[7, 11]`. -/
theorem get_country_cumulative_columnwise_sums :
    (∀ data : List (String × List Int),
        (get_country_cumulative data).length = (qualCols data).length
      ∧ ∀ i : Nat, (get_country_cumulative data).get? i
          = ((qualCols data).get? i).map (fun column => column.2.sum))
  ∧ get_country_cumulative
      [("state", [0, 0]), ("city", [0, 0]), ("day1", [3, 4]), ("day2", [5, 6])]
      = [7, 11] := by
  refine ⟨fun data => ⟨?_, fun i => ?_⟩, by decide⟩
  · simp [get_country_cumulative, qualCols]
  · simp only [get_country_cumulative, qualCols, List.get?_map, Option.map_map]
    rfl

/-- C7 (counterexample).  Under the fuel semantics, were the claim true,
`main` invoked with `first_run = true` would terminate with `some 2`
(the initial cycle plus exactly one recursive cycle) at any recursion
depth of at least 2; at depth 40 it still has not terminated. -/
theorem main_one_extra_cycle_cex : main 40 true = none := by decide

/-- C7 (amended).  The recursive call `main(first_run=False)` enters the
same `while True` loop and re-invokes itself in turn, so the `break` of
an invocation is reached only if its callee terminates: the recursion is
unbounded, one fetch/plot cycle per level, and `main(firstRun=true)`
never terminates normally at any recursion depth (absent an interrupt
or a runtime failure such as stack exhaustion). -/
theorem main_never_terminates (fuel : Nat) (first_run : Bool) :
    main fuel first_run = none := by
  induction fuel generalizing first_run with
  | zero => rfl
  | succ n ih => simp [main, ih false]

/-- C8.  `make_time_series_plot` raises `ValueError` (`math domain
error`) on every cumulative-count sequence containing a zero: the
log-scale comprehension applies `math.log`, undefined at zero. -/
theorem make_time_series_plot_zero_raises (freqs : List Int)
    (h : (0 : Int) ∈ freqs) :
    make_time_series_plot freqs = .error (.valueError "math domain error") := by
  induction freqs with
  | nil => cases h
  | cons f rest ih =>
    rcases List.mem_cons.mp h with h0 | h0
    · subst h0
      simp [make_time_series_plot, logListComp, pyMathLog]
    · by_cases hf : 0 < f
      · have hrest := ih h0
        rw [make_time_series_plot] at hrest ⊢
        simp [logListComp, pyMathLog, hf, hrest]
      · simp [make_time_series_plot, logListComp, pyMathLog, hf]

/-- C8 (witness): the sequence `[3, 0, 5]` contains a zero, and the plot
computation raises the math-domain `ValueError`. -/
theorem make_time_series_plot_zero_raises_witness :
    (0 : Int) ∈ [(3 : Int), 0, 5]
  ∧ make_time_series_plot [3, 0, 5] = .error (.valueError "math domain error") :=
  ⟨by decide, make_time_series_plot_zero_raises [3, 0, 5] (by decide)⟩

/-- C9.  `make_plots` leaves the caller's region table unchanged: the
`cases > 20` filter and the state aggregation run on a derived copy, and
the caller's table after the call is exactly the table passed in, every
row and field intact. -/
theorem make_plots_preserves_input (data : List USRegionRecord)
    (ts_data : List (String × List Int)) :
    (make_plots data ts_data).2 = data := rfl

/-- C10.  The `§`/`:` stripping happens before the `"Total"` comparison:
a row whose raw label becomes `"Total"` only after stripping (such as
`"Total:"`) is likewise excluded — deleting it from the page leaves the
parsed output unchanged, wherever the row occurs. -/
theorem get_cdc_data_strip_before_total_check (pre suf : List (String × String))
    (th td : String) (ht : stripMarks th = "Total")
    (hn : isOkB (pyInt td) = true) :
    get_cdc_data (pre ++ (th, td) :: suf) = get_cdc_data (pre ++ suf) := by
  obtain ⟨n, hn'⟩ : ∃ n, pyInt td = .ok n := by
    cases he : pyInt td with
    | error e => rw [he] at hn; simp [isOkB] at hn
    | ok n => exact ⟨n, rfl⟩
  induction pre with
  | nil =>
    simp only [List.nil_append, get_cdc_data, hn']
    cases hs : get_cdc_data suf with
    | error e => rfl
    | ok tail => simp [ht]
  | cons q qs ih =>
    obtain ⟨qa, qb⟩ := q
    simp only [List.cons_append, get_cdc_data]
    cases hq : pyInt qb with
    | error e => rfl
    | ok m =>
      simp only [List.append_eq]
      rw [ih]

/-- C10 (witness): the row `("Total:", "99")` sits between two ordinary
rows; removing it does not change the parsed output. -/
theorem get_cdc_data_strip_before_total_check_witness :
    stripMarks "Total:" = "Total"
  ∧ isOkB (pyInt "99") = true
  ∧ get_cdc_data [("Positive", "1"), ("Total:", "99"), ("Pending", "2")]
      = get_cdc_data [("Positive", "1"), ("Pending", "2")] :=
  ⟨by decide, by decide,
   get_cdc_data_strip_before_total_check [("Positive", "1")] [("Pending", "2")]
     "Total:" "99" (by decide) (by decide)⟩

end CoronaTracker
